import Mathlib

/-!
Verification development for the audio-playback engine of the detendez-bot
repository (cogs/music.py, with the robust voice-join routine of cogs/tts.py).
The Python code is shallowly embedded: pure fragments become Lean functions,
stateful handlers become explicit state passing, and interactions with the
event loop, the voice platform and the media resolver are driven by explicit
outcome oracles. Texts are modeled as lists of characters so that every
definition evaluates inside the kernel.
-/

/-! ## Python string primitives

Character-list models of the Python string operations used by the cog:
str.strip, str.split(sep), str.startswith, str.lower and the substring test
of the in operator. -/

/-- Whitespace recognized by Python str.strip with no arguments
(ASCII range, which is all the cog ever feeds it). -/
def pyIsSpace (c : Char) : Bool :=
  c = ' ' || c = '\t' || c = '\n' || c = '\r' || c = '\x0b' || c = '\x0c'

/-- Model of Python str.strip: drop whitespace from both ends. -/
def pyStrip (s : List Char) : List Char :=
  ((s.dropWhile pyIsSpace).reverse.dropWhile pyIsSpace).reverse

/-- Model of Python str.split(sep) with an explicit separator: split at every
occurrence of sep, keeping empty fields. -/
def pySplit (sep : Char) : List Char → List (List Char)
  | [] => [[]]
  | c :: rest =>
    if c = sep then [] :: pySplit sep rest
    else
      match pySplit sep rest with
      | h :: t => (c :: h) :: t
      | [] => [[c]]

/-- Model of Python str.startswith for a one-character head. -/
def pyStartsWith (c : Char) : List Char → Bool
  | [] => false
  | d :: _ => d = c

/-- Model of Python str.lower on the ASCII texts the cog handles. -/
def pyLower (s : List Char) : List Char := s.map Char.toLower

/-- Model of the Python test pat in s: pat occurs as a contiguous substring. -/
def pyContains (pat s : List Char) : Bool :=
  s.tails.any (fun t => pat.isPrefixOf t)

/-! ## Data model

SongData models the metadata dictionary produced by the media resolver and
stored in the queue (the fields music.py reads). -/

/-- Track metadata dictionary as consumed by the cog: title, stream url,
webpage url, optional duration in seconds, optional thumbnail. -/
structure SongData where
  title : String
  url : String
  webpage_url : String
  duration : Option Nat
  thumbnail : Option String
  deriving DecidableEq, Repr

/-- MusicQueue (music.py lines 178-205): per-guild queue, current track and
volume. The volume float is modeled as a rational. -/
structure MusicQueue where
  queue : List SongData
  current : Option SongData
  volume : ℚ
  deriving DecidableEq, Repr

/-- MusicQueue.__init__ (music.py lines 181-184): empty queue, no current
track, volume 0.5. -/
def MusicQueue.init : MusicQueue :=
  { queue := [], current := none, volume := 1/2 }

/-- MusicQueue.add (music.py lines 186-188): append the song to the queue. -/
def MusicQueue.add (q : MusicQueue) (song_data : SongData) : MusicQueue :=
  { q with queue := q.queue ++ [song_data] }

/-- MusicQueue.get_next (music.py lines 190-194): pop and return the head of
the queue, or return None when the queue is empty. -/
def MusicQueue.get_next (q : MusicQueue) : Option SongData × MusicQueue :=
  match q.queue with
  | song :: rest => (some song, { q with queue := rest })
  | [] => (none, q)

/-- MusicQueue.clear (music.py lines 196-199): empty the queue and clear the
current track. -/
def MusicQueue.clear (q : MusicQueue) : MusicQueue :=
  { q with queue := [], current := none }

/-- MusicQueue.remove (music.py lines 201-205): list.pop at a 0-based index
when it is in range, returning the removed element, else return None and
leave the queue unchanged. -/
def MusicQueue.remove (q : MusicQueue) (index : Int) : Option SongData × MusicQueue :=
  if 0 ≤ index ∧ index < (q.queue.length : Int) then
    (q.queue[index.toNat]?, { q with queue := q.queue.eraseIdx index.toNat })
  else
    (none, q)

/-- Decimal digits of a natural number, as produced by Python str formatting. -/
def natToString (n : Nat) : String := toString n

/-- MusicQueue.format_duration (music.py lines 222-230): falsy input (a
missing duration, modeled as none, or the number 0) gives the string Unknown;
otherwise minutes then a colon then the seconds zero-padded to two digits.
The zero padding models the Python format spec 02d. -/
def MusicQueue.format_duration : Option Nat → String
  | none => "Unknown"
  | some s =>
    if s = 0 then "Unknown"
    else
      natToString (s / 60) ++ ":" ++
        (if s % 60 < 10 then "0" ++ natToString (s % 60) else natToString (s % 60))

/-! ## Command-layer queue operations (MusicCog) -/

/-- Outcome of the remove slash command. -/
inductive RemoveOutcome where
  | invalidPosition
  | removedMsg (song : SongData)
  | failedMsg
  deriving DecidableEq, Repr

/-- MusicCog.remove (music.py lines 553-565): reject a 1-based position below
1 or above the queue length, otherwise pop position minus one from the queue
and report the removed song, or a failure message when the pop returned
None. -/
def MusicCog.removeCmd (q : MusicQueue) (position : Int) : RemoveOutcome × MusicQueue :=
  if position < 1 ∨ position > (q.queue.length : Int) then
    (RemoveOutcome.invalidPosition, q)
  else
    match q.remove (position - 1) with
    | (some song, q2) => (RemoveOutcome.removedMsg song, q2)
    | (none, q2) => (RemoveOutcome.failedMsg, q2)

/-- Outcome of the volume slash command. -/
inductive VolumeOutcome where
  | rejected
  | accepted
  deriving DecidableEq, Repr

/-- MusicCog.volume (music.py lines 507-522): reject a percentage outside 0
to 100 before touching any state, otherwise store the percentage divided by
100 as the queue volume (and mirror it onto the live sink). -/
def MusicCog.volumeCmd (q : MusicQueue) (volume : Int) : VolumeOutcome × MusicQueue :=
  if volume < 0 ∨ volume > 100 then
    (VolumeOutcome.rejected, q)
  else
    (VolumeOutcome.accepted, { q with volume := (volume : ℚ) / 100 })

/-! ## Cookie validation -/

/-- Loop body test of MusicCog._validate_cookies (music.py lines 691-703):
after stripping, the line is kept when it is non-empty, is not a comment and
has at least 6, or else at least 3, tab-separated fields. -/
def isValidCookieLine (line : List Char) : Bool :=
  let t := pyStrip line
  if t = [] || pyStartsWith '#' t then false
  else
    let parts := pySplit '\t' t
    if parts.length ≥ 6 then true
    else if parts.length ≥ 3 then true
    else false

/-- MusicCog._validate_cookies (music.py lines 683-706): reject empty or
all-whitespace content, then count the lines the loop accepts and succeed
exactly when at least one line was counted. -/
def validate_cookies (cookies_content : List Char) : Bool :=
  if cookies_content = [] || pyStrip cookies_content = [] then false
  else 0 < (pySplit '\n' cookies_content).countP isValidCookieLine

/-- Line acceptance test as worded by the specification claim: the raw line
is non-empty, does not start with a hash character, and splits on tab
characters into at least 3 fields. Stated from the claim text, for
comparison with the source function. -/
def claimValidCookieLine (line : List Char) : Bool :=
  line ≠ [] && !pyStartsWith '#' line && (pySplit '\t' line).length ≥ 3

/-- Acceptance predicate as worded by the specification claim: some line of
the text passes claimValidCookieLine. -/
def claimAcceptsCookies (cookies_content : List Char) : Bool :=
  (pySplit '\n' cookies_content).any claimValidCookieLine

/-! ## Stream resolution (YTDLSource)

The blocking extract_info calls are driven by an oracle: a list of outcomes,
one consumed per call. Each outcome either returns an extraction result or
raises with a message. -/

/-- Result of one upstream extract_info call: either a plain metadata
dictionary, or a collection carrying an entries list. -/
inductive ExtractData where
  | single (d : SongData)
  | playlist (entries : List SongData)
  deriving DecidableEq, Repr

/-- Outcome of one extract_info call as seen by the caller. -/
inductive ExtractOutcome where
  | returns (data : ExtractData)
  | raises (msg : String)
  deriving DecidableEq, Repr

/-- Cookie-related error test of music.py lines 122 and 166: the lowered
exception text contains sign in, bot, or cookies. -/
def isCookieErrorMsg (msg : String) : Bool :=
  let m := pyLower msg.toList
  pyContains "sign in".toList m || pyContains "bot".toList m ||
    pyContains "cookies".toList m

/-- Entries unwrapping shared by YTDLSource.create_source (music.py lines
110-112) and the direct-URL path of MusicCog.play (lines 373-374): when the
extraction result carries an entries key, take element 0 unconditionally;
an empty entries list raises an IndexError whose text is
list index out of range. -/
def entriesUnwrap (data : ExtractData) : Except String SongData :=
  match data with
  | ExtractData.single d => Except.ok d
  | ExtractData.playlist (e :: _) => Except.ok e
  | ExtractData.playlist [] => Except.error "list index out of range"

/-- Result of YTDLSource.create_source: a constructed audio source carrying
the metadata, a raised exception with its message, or exhaustion of the
outcome oracle (never reached when the oracle is long enough). -/
inductive CreateResult where
  | created (d : SongData)
  | raised (msg : String)
  | oracleExhausted
  deriving DecidableEq, Repr

/-- YTDLSource.create_source (music.py lines 95-142). The first component is
the result, the second the number of refresh_ytdl_cookies calls, the third
the number of extract_info calls. One outcome is consumed per extract_info
call; the entries unwrapping runs inside the try block, so an IndexError
from an empty entries list is classified by the same except handler. On a
cookie-related error with retry_with_refresh set: without a cookies file a
dedicated exception is raised, otherwise the cookies are refreshed and the
call retries itself exactly once with retry_with_refresh cleared. -/
def create_source (search : String) (cookiesAvailable retry_with_refresh : Bool) :
    List ExtractOutcome → CreateResult × Nat × Nat
  | [] => (CreateResult.oracleExhausted, 0, 0)
  | o :: rest =>
    let attempt : Except String SongData :=
      match o with
      | ExtractOutcome.returns data => entriesUnwrap data
      | ExtractOutcome.raises msg => Except.error msg
    match attempt with
    | Except.ok d => (CreateResult.created d, 0, 1)
    | Except.error msg =>
      if isCookieErrorMsg msg && retry_with_refresh then
        if !cookiesAvailable then
          (CreateResult.raised
            "YouTube access restricted. Add a youtube_cookies.txt file for better access.",
           0, 1)
        else
          let r := create_source search cookiesAvailable false rest
          (r.1, r.2.1 + 1, r.2.2 + 1)
      else if pyContains "age".toList (pyLower msg.toList) ||
          pyContains "restricted".toList (pyLower msg.toList) then
        (CreateResult.raised ("Video is age-restricted or region-blocked: " ++ search), 0, 1)
      else if pyContains "unavailable".toList (pyLower msg.toList) then
        (CreateResult.raised ("Video is unavailable: " ++ search), 0, 1)
      else if pyContains "private".toList (pyLower msg.toList) then
        (CreateResult.raised ("Video is private: " ++ search), 0, 1)
      else
        (CreateResult.raised ("Error processing audio: " ++ msg), 0, 1)

/-- YTDLSource.search_youtube (music.py lines 144-176). Components as in
create_source: result, refresh calls, extract_info calls. The entries list
is checked for truthiness before indexing; every failure path returns None.
A cookie-related error with retry_with_refresh set and a cookies file
present refreshes and retries exactly once with the flag cleared. -/
def search_youtube (cookiesAvailable retry_with_refresh : Bool) :
    List ExtractOutcome → Option SongData × Nat × Nat
  | [] => (none, 0, 0)
  | o :: rest =>
    match o with
    | ExtractOutcome.returns data =>
      match data with
      | ExtractData.playlist (e :: _) => (some e, 0, 1)
      | ExtractData.playlist [] => (none, 0, 1)
      | ExtractData.single _ => (none, 0, 1)
    | ExtractOutcome.raises msg =>
      if isCookieErrorMsg msg && retry_with_refresh then
        if cookiesAvailable then
          let r := search_youtube cookiesAvailable false rest
          (r.1, r.2.1 + 1, r.2.2 + 1)
        else (none, 0, 1)
      else (none, 0, 1)

/-! ## Scheduler events and play_next -/

/-- Observable actions of the scheduler paths of MusicCog, in program
order. -/
inductive Event where
  | getNext (found : Bool)
  | resolveQuery
  | queueAdd (title : String)
  | resolveTrack (url : String)
  | resolveFailed (url : String)
  | sinkPlay (title : String)
  | setCurrent (title : String)
  | cancelInactivityTimer
  | startInactivityTimer
  deriving DecidableEq, Repr

/-- Test for a sinkPlay event. -/
def Event.isSinkPlay : Event → Bool
  | Event.sinkPlay _ => true
  | _ => false

/-- Test for a resolveFailed event. -/
def Event.isResolveFailed : Event → Bool
  | Event.resolveFailed _ => true
  | _ => false

/-- Recursion of MusicCog.play_next (music.py lines 304-338) over the queue
list. The resolves oracle abstracts whether the create_source call for a
song succeeds. Returns the remaining queue, the final current track, and the
event trace in program order: dequeue, then on a song either a resolution
attempt that on success starts the sink, sets the current track and then
cancels the inactivity timer, or on failure recurses onto the rest of the
queue; an empty queue clears the current track and starts the inactivity
timer. -/
def play_next_go (resolves : SongData → Bool) :
    List SongData → List SongData × Option SongData × List Event
  | [] => ([], none, [Event.getNext false, Event.startInactivityTimer])
  | song :: rest =>
    if resolves song then
      (rest, some song,
       [Event.getNext true, Event.resolveTrack song.webpage_url,
        Event.sinkPlay song.title, Event.setCurrent song.title,
        Event.cancelInactivityTimer])
    else
      let r := play_next_go resolves rest
      (r.1, r.2.1,
       [Event.getNext true, Event.resolveTrack song.webpage_url,
        Event.resolveFailed song.webpage_url] ++ r.2.2)

/-- MusicCog.play_next on a MusicQueue: run the recursion on the queue list
and write back the remaining queue and the current track. The volume field
is never written by play_next. -/
def play_next (resolves : SongData → Bool) (q : MusicQueue) : MusicQueue × List Event :=
  let r := play_next_go resolves q.queue
  ({ q with queue := r.1, current := r.2.1 }, r.2.2)

/-! ## Queue operation language, for the volume invariant -/

/-- The operations of MusicCog and MusicQueue that touch a MusicQueue. -/
inductive QueueOp where
  | add (s : SongData)
  | getNext
  | clear
  | removeCmd (position : Int)
  | setVolume (v : Int)
  | playNext (resolves : SongData → Bool)

/-- State transformer of each operation, as implemented by the source. -/
def applyOp (q : MusicQueue) : QueueOp → MusicQueue
  | QueueOp.add s => q.add s
  | QueueOp.getNext => q.get_next.2
  | QueueOp.clear => q.clear
  | QueueOp.removeCmd p => (MusicCog.removeCmd q p).2
  | QueueOp.setVolume v => (MusicCog.volumeCmd q v).2
  | QueueOp.playNext resolves => (play_next resolves q).1

/-! ## Voice connection

Two voice-join routines exist in the repository. MusicCog.join_voice_channel
(music.py lines 253-271) performs a single connect call with no retry and no
readiness poll; TTSCog.ensure_connected (tts.py lines 56-91) retries up to 3
times, each try bounded by a 20 second connect timeout and a readiness poll
with a 12 second budget sampled every 200 milliseconds. Connect outcomes are
driven by an oracle indexed by attempt number. Channels and handles are
identified by their channel id. -/

/-- Outcome of one channel.connect call. -/
inductive ConnectOutcome where
  | connects
  | raises
  deriving DecidableEq, Repr

/-- Result of MusicCog.join_voice_channel as observed by its caller. -/
inductive JoinResult where
  | notInVoice
  | handle (channelId : Nat)
  | exnPropagated
  deriving DecidableEq, Repr

/-- MusicCog.join_voice_channel (music.py lines 253-271): when the user is
not in a voice channel, send a message and return None; when a voice client
already exists, move it if needed and return it; otherwise call
channel.connect exactly once, with no retry, no explicit timeout argument
and no readiness poll, letting any exception propagate to the caller. The
second component counts connect calls. -/
def join_voice_channel (userChannel existingClient : Option Nat)
    (connect : Nat → ConnectOutcome) : JoinResult × Nat :=
  match userChannel with
  | none => (JoinResult.notInVoice, 0)
  | some ch =>
    match existingClient with
    | some _ => (JoinResult.handle ch, 0)
    | none =>
      match connect 0 with
      | ConnectOutcome.connects => (JoinResult.handle ch, 1)
      | ConnectOutcome.raises => (JoinResult.exnPropagated, 1)

/-- MusicCog.ensure_voice_connection (music.py lines 273-277): return the
existing voice client, or fall back to join_voice_channel. -/
def ensure_voice_connection (userChannel existingClient : Option Nat)
    (connect : Nat → ConnectOutcome) : JoinResult × Nat :=
  match existingClient with
  | some c => (JoinResult.handle c, 0)
  | none => join_voice_channel userChannel none connect

/-- Connect timeout passed by tts.py line 76, in seconds. -/
def tts_connect_timeout : ℚ := 20

/-- Readiness poll budget passed by tts.py line 77, in seconds. -/
def voice_ready_timeout : ℚ := 12

/-- Sleep between readiness checks, tts.py line 53, in seconds. -/
def voice_ready_interval : ℚ := 1/5

/-- Number of readiness checks performed by TTSCog._wait_voice_ready within
its budget: one check at each multiple of the interval below the timeout,
that is 12 divided by 0.2 checks. -/
def wait_ready_poll_count : Nat := 60

/-- Poll loop of TTSCog._wait_voice_ready (tts.py lines 45-54): check the
readiness signal, sleep, repeat until the budget is exhausted. -/
def wait_voice_ready_go (ready : Nat → Bool) : Nat → Nat → Bool
  | _, 0 => false
  | k, fuel + 1 => if ready k then true else wait_voice_ready_go ready (k + 1) fuel

/-- TTSCog._wait_voice_ready (tts.py lines 45-54): false without a voice
client, otherwise poll the readiness signal. -/
def wait_voice_ready (vcPresent : Bool) (ready : Nat → Bool) : Bool :=
  if vcPresent then wait_voice_ready_go ready 0 wait_ready_poll_count else false

/-- Environment of one iteration of the connect loop of
TTSCog.ensure_connected: the connect outcome for that attempt and the
readiness signal its poll would observe. -/
structure TTSAttempt where
  connect : ConnectOutcome
  readyAt : Nat → Bool

/-- Connect loop of TTSCog.ensure_connected (tts.py lines 71-86), for
attempt in range(3): with a live handle, poll readiness and return it when
ready, else force-disconnect it; with no handle, connect (a raise backs off
and retries, counting one connect call), then poll readiness; return the
handle when ready, else force-disconnect and retry. After the attempts are
exhausted, fall through to the failure message and return None. The second
component counts connect calls. -/
def ensure_connected_go (oracle : Nat → TTSAttempt) (ch : Nat) :
    Option Nat → Nat → Nat → Option Nat × Nat
  | _, _, 0 => (none, 0)
  | some h, i, n + 1 =>
    if wait_voice_ready true (oracle i).readyAt then (some h, 0)
    else
      let r := ensure_connected_go oracle ch none (i + 1) n
      (r.1, r.2)
  | none, i, n + 1 =>
    match (oracle i).connect with
    | ConnectOutcome.raises =>
      let r := ensure_connected_go oracle ch none (i + 1) n
      (r.1, r.2 + 1)
    | ConnectOutcome.connects =>
      if wait_voice_ready true (oracle i).readyAt then (some ch, 1)
      else
        let r := ensure_connected_go oracle ch none (i + 1) n
        (r.1, r.2 + 1)

/-- TTSCog.ensure_connected (tts.py lines 56-91): without a user voice
channel, send a message and return None; otherwise run the 3-attempt
connect loop under the per-guild lock, starting from the current voice
client, after moving it to the target channel when needed. -/
def ensure_connected (userChannel existingVc : Option Nat)
    (oracle : Nat → TTSAttempt) : Option Nat × Nat :=
  match userChannel with
  | none => (none, 0)
  | some ch => ensure_connected_go oracle ch existingVc 0 3

/-- MusicCog.play (music.py lines 342-396) at the granularity of its
connection gate: defer, then ensure_voice_connection; when that yields no
usable client (the user was not in voice, or connect raised and the
exception propagated past line 347, which sits outside the try block),
return at line 349 with no resolution call, no enqueue and no sink start.
Otherwise resolve the query (the song parameter stands for the successful
resolution), enqueue it, and when nothing is playing or paused, run
play_next. -/
def play_trace (userChannel existingClient : Option Nat)
    (connect : Nat → ConnectOutcome) (q : MusicQueue)
    (resolves : SongData → Bool) (song : SongData) (alreadyPlaying : Bool) :
    MusicQueue × List Event :=
  match ensure_voice_connection userChannel existingClient connect with
  | (JoinResult.handle _, _) =>
    let q1 := q.add song
    if alreadyPlaying then (q1, [Event.resolveQuery, Event.queueAdd song.title])
    else
      let r := play_next resolves q1
      (r.1, [Event.resolveQuery, Event.queueAdd song.title] ++ r.2)
  | _ => (q, [])

/-! ## Concrete sample data -/

/-- Sample track a. -/
def songA : SongData :=
  { title := "a", url := "ua", webpage_url := "wa", duration := some 61, thumbnail := none }

/-- Sample track b. -/
def songB : SongData :=
  { title := "b", url := "ub", webpage_url := "wb", duration := none, thumbnail := none }

/-- Sample track c. -/
def songC : SongData :=
  { title := "c", url := "uc", webpage_url := "wc", duration := some 0, thumbnail := none }

/-- Sample track d. -/
def songD : SongData :=
  { title := "d", url := "ud", webpage_url := "wd", duration := some 125, thumbnail := none }

/-- A queue holding only track a. -/
def qA : MusicQueue := { queue := [songA], current := none, volume := 1/2 }

/-- A queue holding four tracks, used with an all-failing resolution
oracle. -/
def qFour : MusicQueue :=
  { queue := [songA, songB, songC, songD], current := none, volume := 1/2 }

/-! ## Helper lemmas -/

/-- String append is associative (components are list appends). -/
theorem string_append_assoc (a b c : String) : a ++ b ++ c = a ++ (b ++ c) := by
  obtain ⟨la⟩ := a
  obtain ⟨lb⟩ := b
  obtain ⟨lc⟩ := c
  show String.mk (la ++ lb ++ lc) = String.mk (la ++ (lb ++ lc))
  rw [List.append_assoc]

/-- MusicQueue.remove never changes the volume field. -/
theorem remove_preserves_volume (q : MusicQueue) (i : Int) :
    (q.remove i).2.volume = q.volume := by
  unfold MusicQueue.remove
  split <;> rfl

/-- The remove command never changes the volume field. -/
theorem removeCmd_preserves_volume (q : MusicQueue) (p : Int) :
    (MusicCog.removeCmd q p).2.volume = q.volume := by
  unfold MusicCog.removeCmd
  split
  · rfl
  · rcases hr : q.remove (p - 1) with ⟨o, q2⟩
    have h2 : q2.volume = q.volume := by
      have h3 := remove_preserves_volume q (p - 1)
      rw [hr] at h3
      exact h3
    cases o <;> simp [hr, h2]

/-! ## Claim theorems -/

/-- C6: every sequence of enqueues with no intervening dequeue lists the
tracks in insertion order, and get_next always removes and returns the head
(oldest) element: the queue is FIFO. -/
theorem queue_fifo_order :
    (∀ (q : MusicQueue) (songs : List SongData),
      (songs.foldl MusicQueue.add q).queue = q.queue ++ songs) ∧
    (∀ (q : MusicQueue) (s : SongData) (rest : List SongData),
      q.queue = s :: rest → q.get_next = (some s, { q with queue := rest })) ∧
    (∀ q : MusicQueue, q.queue = [] → q.get_next = (none, q)) := by
  refine ⟨?_, ?_, ?_⟩
  · intro q songs
    induction songs generalizing q with
    | nil => simp
    | cons s ss ih => simp [MusicQueue.add, ih]
  · intro q s rest h
    obtain ⟨qu, cur, vol⟩ := q
    simp only at h
    subst h
    rfl
  · intro q h
    obtain ⟨qu, cur, vol⟩ := q
    simp only at h
    subst h
    rfl

/-- Witness for C6 at a concrete queue: two enqueues append in order, and
dequeue returns the head. -/
theorem queue_fifo_order_witness :
    (([songB, songC].foldl MusicQueue.add qA).queue = [songA, songB, songC]) ∧
    qA.get_next = (some songA, { qA with queue := [] }) := by
  constructor
  · have h := queue_fifo_order.1 qA [songB, songC]
    simpa [qA] using h
  · exact queue_fifo_order.2.1 qA songA [] rfl

/-- C5: a 1-based position below 1 or above the queue length makes the
remove command answer InvalidPosition with the queue unchanged element for
element, while an in-range position removes and reports exactly the element
at that position, leaving the rest of the queue intact. -/
theorem removeCmd_position_spec :
    (∀ (q : MusicQueue) (p : Int), p < 1 ∨ p > (q.queue.length : Int) →
      MusicCog.removeCmd q p = (RemoveOutcome.invalidPosition, q)) ∧
    (∀ (q : MusicQueue) (p : Int), 1 ≤ p → p ≤ (q.queue.length : Int) →
      ∃ s, q.queue[(p - 1).toNat]? = some s ∧
        MusicCog.removeCmd q p =
          (RemoveOutcome.removedMsg s,
           { q with queue :=
              q.queue.take (p - 1).toNat ++ q.queue.drop ((p - 1).toNat + 1) })) := by
  constructor
  · intro q p h
    simp [MusicCog.removeCmd, h]
  · intro q p h1 h2
    have hnat : (p - 1).toNat < q.queue.length := by omega
    refine ⟨q.queue[(p - 1).toNat], List.getElem?_eq_getElem hnat, ?_⟩
    have hcond : ¬ (p < 1 ∨ p > (q.queue.length : Int)) := by omega
    have hcond2 : 0 ≤ p - 1 ∧ p - 1 < (q.queue.length : Int) := by omega
    simp only [MusicCog.removeCmd, if_neg hcond, MusicQueue.remove, if_pos hcond2,
      List.getElem?_eq_getElem hnat, List.eraseIdx_eq_take_drop_succ]

/-- Witness for C5: position 5 on a 1-item queue is rejected with the queue
unchanged, and position 1 removes exactly the first element. -/
theorem removeCmd_position_spec_witness :
    MusicCog.removeCmd qA 5 = (RemoveOutcome.invalidPosition, qA) ∧
    MusicCog.removeCmd qA 1 = (RemoveOutcome.removedMsg songA, { qA with queue := [] }) := by
  constructor
  · exact removeCmd_position_spec.1 qA 5 (by decide)
  · obtain ⟨s, hs, hr⟩ := removeCmd_position_spec.2 qA 1 (by decide) (by decide)
    have hsa : s = songA := by
      simpa [qA] using hs.symm
    rw [hr, hsa]
    rfl

/-- C7: the guild volume starts at one half and stays inside the closed
interval from 0 to 1 under every queue operation; the volume command rejects
an out-of-range percentage before mutating any state, and no other
operation writes the volume at all. -/
theorem volume_always_in_range :
    MusicQueue.init.volume ∈ Set.Icc (0:ℚ) 1 ∧
    (∀ (q : MusicQueue) (op : QueueOp), q.volume ∈ Set.Icc (0:ℚ) 1 →
      (applyOp q op).volume ∈ Set.Icc (0:ℚ) 1) ∧
    (∀ (q : MusicQueue) (v : Int), v < 0 ∨ v > 100 →
      MusicCog.volumeCmd q v = (VolumeOutcome.rejected, q)) := by
  refine ⟨?_, ?_, ?_⟩
  · constructor <;> norm_num [MusicQueue.init]
  · intro q op h
    cases op with
    | add s => simpa [applyOp, MusicQueue.add] using h
    | getNext =>
      obtain ⟨qu, cur, vol⟩ := q
      cases qu <;> simpa [applyOp, MusicQueue.get_next] using h
    | clear => simpa [applyOp, MusicQueue.clear] using h
    | removeCmd p =>
      have hv := removeCmd_preserves_volume q p
      simpa [applyOp, hv] using h
    | setVolume v =>
      by_cases hv : v < 0 ∨ v > 100
      · simpa [applyOp, MusicCog.volumeCmd, hv] using h
      · push_neg at hv
        simp only [applyOp, MusicCog.volumeCmd, if_neg (by omega : ¬ (v < 0 ∨ v > 100))]
        constructor
        · exact div_nonneg (by exact_mod_cast hv.1) (by norm_num)
        · rw [div_le_one (by norm_num)]
          exact_mod_cast hv.2
    | playNext resolves => simpa [applyOp, play_next] using h
  · intro q v h
    simp [MusicCog.volumeCmd, h]

/-- Witness for C7: the initial volume is in range, a setVolume to 30
percent keeps it in range, and setVolume 150 is rejected leaving the state
untouched. -/
theorem volume_always_in_range_witness :
    (applyOp MusicQueue.init (QueueOp.setVolume 30)).volume ∈ Set.Icc (0:ℚ) 1 ∧
    MusicCog.volumeCmd MusicQueue.init 150 = (VolumeOutcome.rejected, MusicQueue.init) := by
  constructor
  · exact volume_always_in_range.2.1 MusicQueue.init (QueueOp.setVolume 30)
      volume_always_in_range.1
  · exact volume_always_in_range.2.2 MusicQueue.init 150 (by omega)

/-- C9: the entries unwrapping taken by create_source and the direct-URL
path of the play command indexes entry 0 without an emptiness check, so an
extraction result carrying an empty entries list makes resolution fail with
the wrapped IndexError text rather than a typed not-found result, while the
guarded search path returns None on the same input. -/
theorem empty_entries_index_error :
    entriesUnwrap (ExtractData.playlist []) = Except.error "list index out of range" ∧
    create_source "u" true true [ExtractOutcome.returns (ExtractData.playlist [])] =
      (CreateResult.raised "Error processing audio: list index out of range", 0, 1) ∧
    create_source "u" false true [ExtractOutcome.returns (ExtractData.playlist [])] =
      (CreateResult.raised "Error processing audio: list index out of range", 0, 1) ∧
    search_youtube true true [ExtractOutcome.returns (ExtractData.playlist [])] =
      (none, 0, 1) ∧
    entriesUnwrap (ExtractData.playlist [songA]) = Except.ok songA := by
  refine ⟨rfl, ?_, ?_, rfl, rfl⟩ <;> decide

/-- C10: format_duration answers Unknown for a missing duration and for
exactly 0 seconds, and for every positive duration produces minutes, a
colon, and the seconds zero-padded to two digits. -/
theorem format_duration_spec :
    MusicQueue.format_duration none = "Unknown" ∧
    MusicQueue.format_duration (some 0) = "Unknown" ∧
    ∀ s : Nat, 0 < s →
      (s % 60 < 10 → MusicQueue.format_duration (some s) =
        natToString (s / 60) ++ ":0" ++ natToString (s % 60)) ∧
      (10 ≤ s % 60 → MusicQueue.format_duration (some s) =
        natToString (s / 60) ++ ":" ++ natToString (s % 60)) := by
  refine ⟨rfl, rfl, ?_⟩
  intro s hs
  constructor
  · intro hlt
    simp only [MusicQueue.format_duration, if_neg (Nat.pos_iff_ne_zero.mp hs), if_pos hlt]
    rw [string_append_assoc, string_append_assoc]
    rfl
  · intro hge
    simp only [MusicQueue.format_duration, if_neg (Nat.pos_iff_ne_zero.mp hs),
      if_neg (by omega : ¬ s % 60 < 10)]

/-- Witness for C10: 61 seconds formats as 1 colon 01, via the theorem. -/
theorem format_duration_spec_witness :
    MusicQueue.format_duration (some 61) =
      natToString (61 / 60) ++ ":0" ++ natToString (61 % 60) :=
  (format_duration_spec.2.2 61 (by decide)).1 (by decide)

/-- The split of a text is never the empty list of lines. -/
theorem pySplit_ne_nil (sep : Char) (s : List Char) : pySplit sep s ≠ [] := by
  induction s with
  | nil => simp [pySplit]
  | cons c rest ih =>
    simp only [pySplit]
    split
    · simp
    · rcases h : pySplit sep rest with _ | ⟨hd, tl⟩
      · exact absurd h ih
      · simp [h]

/-- Every character of a line of the split occurs in the original text. -/
theorem mem_pySplit_subset (sep : Char) :
    ∀ (s l : List Char), l ∈ pySplit sep s → ∀ c ∈ l, c ∈ s := by
  intro s
  induction s with
  | nil =>
    intro l hl c hc
    simp only [pySplit, List.mem_singleton] at hl
    subst hl
    simp at hc
  | cons d rest ih =>
    intro l hl c hc
    simp only [pySplit] at hl
    by_cases hd : d = sep
    · rw [if_pos hd] at hl
      rcases List.mem_cons.mp hl with h1 | h2
      · subst h1
        simp at hc
      · exact List.mem_cons_of_mem d (ih l h2 c hc)
    · rw [if_neg hd] at hl
      rcases hsp : pySplit sep rest with _ | ⟨hd2, tl⟩
      · exact absurd hsp (pySplit_ne_nil sep rest)
      · rw [hsp] at hl
        rcases List.mem_cons.mp hl with h1 | h2
        · subst h1
          rcases List.mem_cons.mp hc with h3 | h4
          · subst h3
            exact List.mem_cons_self _ _
          · refine List.mem_cons_of_mem d (ih hd2 ?_ c h4)
            rw [hsp]
            exact List.mem_cons_self _ _
        · refine List.mem_cons_of_mem d (ih l ?_ c hc)
          rw [hsp]
          exact List.mem_cons_of_mem _ h2

/-- A text strips to nothing exactly when all its characters are
whitespace. -/
theorem pyStrip_eq_nil_iff (s : List Char) :
    pyStrip s = [] ↔ ∀ c ∈ s, pyIsSpace c = true := by
  unfold pyStrip
  rw [List.reverse_eq_nil_iff, List.dropWhile_eq_nil_iff]
  constructor
  · intro h c hc
    by_cases hcd : c ∈ s.dropWhile pyIsSpace
    · exact h c (List.mem_reverse.mpr hcd)
    · have hsplit := List.takeWhile_append_dropWhile pyIsSpace s
      have hc2 : c ∈ s.takeWhile pyIsSpace ++ s.dropWhile pyIsSpace := by
        rw [hsplit]
        exact hc
      rcases List.mem_append.mp hc2 with h1 | h2
      · exact List.mem_takeWhile_imp h1
      · exact absurd h2 hcd
  · intro h c hc
    exact h c ((List.dropWhile_sublist pyIsSpace).subset (List.mem_reverse.mp hc))

/-- Unfolding of the loop body test of _validate_cookies into its three
conjuncts over the stripped line. -/
theorem isValidCookieLine_iff (line : List Char) :
    isValidCookieLine line = true ↔
      (pyStrip line ≠ [] ∧ pyStartsWith '#' (pyStrip line) = false ∧
        3 ≤ (pySplit '\t' (pyStrip line)).length) := by
  simp only [isValidCookieLine]
  split_ifs with h1 h2 h3
  · simp only [Bool.or_eq_true, decide_eq_true_eq] at h1
    constructor
    · intro hfalse
      exact absurd hfalse (by simp)
    · intro ⟨ha, hb, _⟩
      rcases h1 with h1 | h1
      · exact absurd h1 ha
      · rw [h1] at hb
        exact absurd hb (by simp)
  · simp only [Bool.or_eq_true, decide_eq_true_eq, not_or] at h1
    refine ⟨fun _ => ⟨h1.1, ?_, by omega⟩, fun _ => rfl⟩
    rcases hb : pyStartsWith '#' (pyStrip line) with _ | _
    · rfl
    · exact absurd hb h1.2
  · simp only [Bool.or_eq_true, decide_eq_true_eq, not_or] at h1
    refine ⟨fun _ => ⟨h1.1, ?_, by omega⟩, fun _ => rfl⟩
    rcases hb : pyStartsWith '#' (pyStrip line) with _ | _
    · rfl
    · exact absurd hb h1.2
  · simp only [Bool.or_eq_true, decide_eq_true_eq, not_or] at h1
    constructor
    · intro hfalse
      exact absurd hfalse (by simp)
    · intro ⟨_, _, hlen⟩
      omega

/-- C8 counterexample: the single-line text consisting of the characters a,
tab, b, tab is rejected by _validate_cookies (its stripped form has only 2
tab-separated fields), although the raw line is non-empty, does not start
with a hash, and splits on tab characters into 3 fields, so the claimed
acceptance condition holds for it. -/
theorem validate_cookies_raw_line_counterexample :
    claimAcceptsCookies "a\tb\t".toList = true ∧
    validate_cookies "a\tb\t".toList = false := by decide

/-- C8 amended: _validate_cookies accepts a text exactly when some line,
after stripping surrounding whitespace, is non-empty, does not start with a
hash character, and splits on tab characters into at least 3 fields. -/
theorem validate_cookies_stripped_spec (c : List Char) :
    validate_cookies c = true ↔
      ∃ line ∈ pySplit '\n' c,
        pyStrip line ≠ [] ∧ pyStartsWith '#' (pyStrip line) = false ∧
        3 ≤ (pySplit '\t' (pyStrip line)).length := by
  constructor
  · intro h
    unfold validate_cookies at h
    split_ifs at h with hg
    have hpos : 0 < (pySplit '\n' c).countP isValidCookieLine := of_decide_eq_true h
    obtain ⟨line, hmem, hline⟩ := List.countP_pos_iff.mp hpos
    exact ⟨line, hmem, (isValidCookieLine_iff line).mp hline⟩
  · intro ⟨line, hmem, hline⟩
    have hv : isValidCookieLine line = true := (isValidCookieLine_iff line).mpr hline
    unfold validate_cookies
    have hc_ne : ¬ (c = []) := by
      intro hc
      subst hc
      simp only [pySplit, List.mem_singleton] at hmem
      subst hmem
      exact hline.1 rfl
    have hstrip_ne : ¬ (pyStrip c = []) := by
      intro hc
      have hall := (pyStrip_eq_nil_iff c).mp hc
      have hlineall : ∀ ch ∈ line, pyIsSpace ch = true :=
        fun ch hch => hall ch (mem_pySplit_subset '\n' c line hmem ch hch)
      exact hline.1 ((pyStrip_eq_nil_iff line).mpr hlineall)
    rw [if_neg (by simp [hc_ne, hstrip_ne])]
    exact decide_eq_true (List.countP_pos_iff.mpr ⟨line, hmem, hv⟩)

/-- Witness for C8 amended: a well-formed three-field cookie line is
accepted, via the amended theorem. -/
theorem validate_cookies_stripped_spec_witness :
    validate_cookies "d\tf\tp".toList = true :=
  (validate_cookies_stripped_spec "d\tf\tp".toList).mpr
    ⟨"d\tf\tp".toList, by decide, by decide, by decide, by decide⟩

/-- With retry_with_refresh cleared, create_source never refreshes and makes
at most one extraction call. -/
theorem create_source_no_retry (search : String) (ca : Bool)
    (outcomes : List ExtractOutcome) :
    (create_source search ca false outcomes).2.1 = 0 ∧
    (create_source search ca false outcomes).2.2 ≤ 1 := by
  cases outcomes with
  | nil => simp [create_source]
  | cons o rest =>
    cases o with
    | returns data =>
      cases data with
      | single d => simp [create_source, entriesUnwrap]
      | playlist entries =>
        cases entries with
        | nil =>
          simp only [create_source, entriesUnwrap, Bool.and_false]
          split_ifs <;> simp_all
        | cons e es => simp [create_source, entriesUnwrap]
    | raises msg =>
      simp only [create_source, Bool.and_false]
      split_ifs <;> simp_all

/-- With retry_with_refresh cleared, search_youtube never refreshes and
makes at most one extraction call. -/
theorem search_youtube_no_retry (ca : Bool) (outcomes : List ExtractOutcome) :
    (search_youtube ca false outcomes).2.1 = 0 ∧
    (search_youtube ca false outcomes).2.2 ≤ 1 := by
  cases outcomes with
  | nil => simp [search_youtube]
  | cons o rest =>
    cases o with
    | returns data =>
      cases data with
      | single d => simp [search_youtube]
      | playlist entries => cases entries <;> simp [search_youtube]
    | raises msg =>
      simp only [search_youtube, Bool.and_false]
      split_ifs <;> simp_all

/-- C2: every single create_source or search_youtube call performs at most
one cookie refresh and at most two extraction attempts, and when both the
first attempt and the retry are blocked by a cookie-related error the call
surfaces the failure (a raised exception, or None for the search) after
exactly one refresh and exactly two attempts, with no further automatic
retries. -/
theorem resolve_refresh_at_most_once :
    (∀ (search : String) (ca : Bool) (outcomes : List ExtractOutcome),
      (create_source search ca true outcomes).2.1 ≤ 1 ∧
      (create_source search ca true outcomes).2.2 ≤ 2) ∧
    (∀ (ca : Bool) (outcomes : List ExtractOutcome),
      (search_youtube ca true outcomes).2.1 ≤ 1 ∧
      (search_youtube ca true outcomes).2.2 ≤ 2) ∧
    (∀ (search m1 m2 : String) (rest : List ExtractOutcome),
      isCookieErrorMsg m1 = true → isCookieErrorMsg m2 = true →
      (∃ emsg, create_source search true true
          (ExtractOutcome.raises m1 :: ExtractOutcome.raises m2 :: rest) =
          (CreateResult.raised emsg, 1, 2)) ∧
      search_youtube true true
          (ExtractOutcome.raises m1 :: ExtractOutcome.raises m2 :: rest) =
        (none, 1, 2)) := by
  refine ⟨?_, ?_, ?_⟩
  · intro search ca outcomes
    cases outcomes with
    | nil => simp [create_source]
    | cons o rest =>
      cases o with
      | returns data =>
        cases data with
        | single d => simp [create_source, entriesUnwrap]
        | playlist entries =>
          cases entries with
          | cons e es => simp [create_source, entriesUnwrap]
          | nil =>
            simp only [create_source, entriesUnwrap]
            rw [if_neg (by decide), if_neg (by decide), if_neg (by decide),
              if_neg (by decide)]
            simp
      | raises msg =>
        have hnr := create_source_no_retry search ca rest
        simp only [create_source, Bool.and_true]
        split_ifs <;> simp_all
  · intro ca outcomes
    cases outcomes with
    | nil => simp [search_youtube]
    | cons o rest =>
      cases o with
      | returns data =>
        cases data with
        | single d => simp [search_youtube]
        | playlist entries => cases entries <;> simp [search_youtube]
      | raises msg =>
        have hnr := search_youtube_no_retry ca rest
        simp only [search_youtube, Bool.and_true]
        split_ifs <;> simp_all
  · intro search m1 m2 rest h1 h2
    constructor
    · simp only [create_source, h1, Bool.true_and, if_true]
      rw [if_neg (by decide : ¬ ((!true) = true))]
      split_ifs with hA hB hC hD <;> first
        | exact ⟨_, rfl⟩
        | simp_all
    · simp only [search_youtube, h1, Bool.true_and, if_true]
      rw [if_neg (by simp : ¬ ((isCookieErrorMsg m2 && false) = true))]

/-- Witness for C2: a doubly blocked resolution (cookie-style error on both
attempts, cookies present) refreshes once, attempts twice, and surfaces the
failure, via the theorem. -/
theorem resolve_refresh_at_most_once_witness :
    (∃ emsg, create_source "q" true true
        [ExtractOutcome.raises "Sign in to confirm you are not a bot",
         ExtractOutcome.raises "Sign in to confirm you are not a bot"] =
        (CreateResult.raised emsg, 1, 2)) ∧
    search_youtube true true
        [ExtractOutcome.raises "Sign in to confirm you are not a bot",
         ExtractOutcome.raises "Sign in to confirm you are not a bot"] =
      (none, 1, 2) :=
  resolve_refresh_at_most_once.2.2 "q" _ _ [] (by decide) (by decide)

/-- With an all-failing resolution oracle, the play_next recursion attempts
and fails every queued song, ends with no current track and an empty queue,
and arms the inactivity timer. -/
theorem play_next_go_all_fail (resolves : SongData → Bool) :
    ∀ l : List SongData, (∀ s ∈ l, resolves s = false) →
      (play_next_go resolves l).1 = [] ∧
      (play_next_go resolves l).2.1 = none ∧
      (play_next_go resolves l).2.2.countP Event.isResolveFailed = l.length ∧
      Event.startInactivityTimer ∈ (play_next_go resolves l).2.2 := by
  intro l
  induction l with
  | nil =>
    intro _
    refine ⟨rfl, rfl, rfl, ?_⟩
    simp [play_next_go]
  | cons s rest ih =>
    intro h
    have hs : resolves s = false := h s (List.mem_cons_self s rest)
    obtain ⟨h1, h2, h3, h4⟩ := ih (fun x hx => h x (List.mem_cons_of_mem s hx))
    refine ⟨?_, ?_, ?_, ?_⟩ <;>
      simp [play_next_go, hs, h1, h2, h3, h4, Event.isResolveFailed, List.countP_cons]

/-- Every run of the play_next recursion is a failure prefix, free of sink
starts and of timer cancellations, followed by either the idle tail (no
track found, inactivity timer armed) or the success tail for a resolvable
song (sink start, current-track update, then the timer cancellation as the
final action). -/
theorem play_next_go_shape (resolves : SongData → Bool) :
    ∀ l : List SongData, ∃ pre : List Event,
      (∀ e ∈ pre, Event.isSinkPlay e = false ∧ e ≠ Event.cancelInactivityTimer) ∧
      ((play_next_go resolves l).2.2 =
          pre ++ [Event.getNext false, Event.startInactivityTimer] ∨
        ∃ s : SongData, resolves s = true ∧
          (play_next_go resolves l).2.2 =
            pre ++ [Event.getNext true, Event.resolveTrack s.webpage_url,
              Event.sinkPlay s.title, Event.setCurrent s.title,
              Event.cancelInactivityTimer]) := by
  intro l
  induction l with
  | nil =>
    refine ⟨[], by simp, Or.inl ?_⟩
    simp [play_next_go]
  | cons s rest ih =>
    obtain ⟨pre, hpre, hcase⟩ := ih
    by_cases hs : resolves s = true
    · refine ⟨[], by simp, Or.inr ⟨s, hs, ?_⟩⟩
      simp [play_next_go, hs]
    · have hs2 : resolves s = false := by
        rcases hb : resolves s with _ | _
        · rfl
        · exact absurd hb hs
      refine ⟨[Event.getNext true, Event.resolveTrack s.webpage_url,
        Event.resolveFailed s.webpage_url] ++ pre, ?_, ?_⟩
      · intro e he
        rcases List.mem_append.mp he with h1 | h2
        · simp only [List.mem_cons, List.not_mem_nil, or_false] at h1
          rcases h1 with h1 | h1 | h1 <;> subst h1 <;> exact ⟨rfl, by simp⟩
        · exact hpre e h2
      · rcases hcase with hc | ⟨t, ht, hc⟩
        · refine Or.inl ?_
          simp [play_next_go, hs2, hc]
        · refine Or.inr ⟨t, ht, ?_⟩
          simp [play_next_go, hs2, hc]

/-- C3 counterexample: on a queue of four tracks that all fail to resolve,
play_next absorbs four consecutive resolution failures, exceeding the
claimed cap of 3, before transitioning to idle. -/
theorem playNext_no_failure_cap_counterexample :
    ¬ ((play_next (fun _ => false) qFour).2.countP Event.isResolveFailed ≤ 3) ∧
    (play_next (fun _ => false) qFour).2.countP Event.isResolveFailed = 4 ∧
    Event.startInactivityTimer ∈ (play_next (fun _ => false) qFour).2 := by decide

/-- C3 amended: on resolution failure play_next auto-advances to the next
queued track with no cap on consecutive failures: when every queued track
fails it absorbs exactly one failure per track, drains the queue, clears
the current track, and only then transitions to idle by arming the
inactivity timer; consequently the number of absorbed consecutive failures
is unbounded over queue contents. -/
theorem playNext_unbounded_advance :
    (∀ (resolves : SongData → Bool) (q : MusicQueue),
      (∀ s ∈ q.queue, resolves s = false) →
      (play_next resolves q).2.countP Event.isResolveFailed = q.queue.length ∧
      (play_next resolves q).1.current = none ∧
      (play_next resolves q).1.queue = [] ∧
      Event.startInactivityTimer ∈ (play_next resolves q).2) ∧
    (∀ n : Nat, ∃ q : MusicQueue,
      (play_next (fun _ => false) q).2.countP Event.isResolveFailed = n) := by
  constructor
  · intro resolves q h
    obtain ⟨h1, h2, h3, h4⟩ := play_next_go_all_fail resolves q.queue h
    refine ⟨?_, ?_, ?_, ?_⟩
    · simpa [play_next] using h3
    · simpa [play_next] using h2
    · simpa [play_next] using h1
    · simpa [play_next] using h4
  · intro n
    refine ⟨{ queue := List.replicate n songA, current := none, volume := 1/2 }, ?_⟩
    have h := (play_next_go_all_fail (fun _ => false) (List.replicate n songA)
      (fun _ _ => rfl)).2.2.1
    simpa [play_next] using h

/-- Witness for C3 amended: the four-track all-failing queue yields four
failures, an empty queue, no current track, and an armed timer, via the
theorem. -/
theorem playNext_unbounded_advance_witness :
    (play_next (fun _ => false) qFour).2.countP Event.isResolveFailed =
      qFour.queue.length ∧
    (play_next (fun _ => false) qFour).1.current = none ∧
    (play_next (fun _ => false) qFour).1.queue = [] ∧
    Event.startInactivityTimer ∈ (play_next (fun _ => false) qFour).2 :=
  playNext_unbounded_advance.1 (fun _ => false) qFour (fun _ _ => rfl)

/-- C4 counterexample: on a one-track resolvable queue the sink start sits
at index 2 of the play_next trace and the timer cancellation at index 4, so
the cancellation is not performed before the sink's play is invoked. -/
theorem cancel_not_before_play_counterexample :
    (play_next (fun _ => true) qA).2 =
      [Event.getNext true, Event.resolveTrack "wa", Event.sinkPlay "a",
       Event.setCurrent "a", Event.cancelInactivityTimer] ∧
    (play_next (fun _ => true) qA).2.findIdx Event.isSinkPlay = 2 ∧
    (play_next (fun _ => true) qA).2.findIdx
      (fun e => decide (e = Event.cancelInactivityTimer)) = 4 ∧
    ¬ ((play_next (fun _ => true) qA).2.findIdx
        (fun e => decide (e = Event.cancelInactivityTimer)) <
       (play_next (fun _ => true) qA).2.findIdx Event.isSinkPlay) := by decide

/-- C4 amended: in every play_next trace the timer cancellation occurs only
as the final event of the success tail, immediately after the sink start
and the current-track update; it is never performed before the sink's play,
and the failure prefix before the tail contains neither a sink start nor a
cancellation. -/
theorem cancel_follows_sink_play :
    ∀ (resolves : SongData → Bool) (q : MusicQueue), ∃ pre : List Event,
      (∀ e ∈ pre, Event.isSinkPlay e = false ∧ e ≠ Event.cancelInactivityTimer) ∧
      ((play_next resolves q).2 =
          pre ++ [Event.getNext false, Event.startInactivityTimer] ∨
        ∃ s : SongData, resolves s = true ∧
          (play_next resolves q).2 =
            pre ++ [Event.getNext true, Event.resolveTrack s.webpage_url,
              Event.sinkPlay s.title, Event.setCurrent s.title,
              Event.cancelInactivityTimer]) := by
  intro resolves q
  obtain ⟨pre, hpre, hcase⟩ := play_next_go_shape resolves q.queue
  exact ⟨pre, hpre, by simpa [play_next] using hcase⟩

/-- Witness for C4 amended: the shape theorem applied to the one-track
resolvable queue. -/
theorem cancel_follows_sink_play_witness :
    ∃ pre : List Event,
      (∀ e ∈ pre, Event.isSinkPlay e = false ∧ e ≠ Event.cancelInactivityTimer) ∧
      ((play_next (fun _ => true) qA).2 =
          pre ++ [Event.getNext false, Event.startInactivityTimer] ∨
        ∃ s : SongData, (fun (_ : SongData) => true) s = true ∧
          (play_next (fun _ => true) qA).2 =
            pre ++ [Event.getNext true, Event.resolveTrack s.webpage_url,
              Event.sinkPlay s.title, Event.setCurrent s.title,
              Event.cancelInactivityTimer]) :=
  cancel_follows_sink_play (fun _ => true) qA

/-- C1 counterexample: with the user in voice channel 1, no existing client,
and every connect raising, the music cog's join routine makes exactly one
connect attempt and lets the exception propagate, instead of the claimed
three bounded tries ending in a failure return. -/
theorem musicJoin_single_attempt_counterexample :
    join_voice_channel (some 1) none (fun _ => ConnectOutcome.raises) =
      (JoinResult.exnPropagated, 1) ∧
    (join_voice_channel (some 1) none (fun _ => ConnectOutcome.raises)).2 ≠ 3 := by decide

/-- The readiness poll returns false whenever the readiness signal is never
true. -/
theorem wait_voice_ready_go_all_false (ready : Nat → Bool)
    (hr : ∀ k, ready k = false) :
    ∀ (fuel k : Nat), wait_voice_ready_go ready k fuel = false := by
  intro fuel
  induction fuel with
  | zero => intro k; rfl
  | succ n ih => intro k; simp [wait_voice_ready_go, hr k, ih (k + 1)]

/-- The connect loop never makes more connect calls than its remaining
attempt budget. -/
theorem ensure_connected_go_count_le (oracle : Nat → TTSAttempt) (ch : Nat) :
    ∀ (n : Nat) (vc : Option Nat) (i : Nat),
      (ensure_connected_go oracle ch vc i n).2 ≤ n := by
  intro n
  induction n with
  | zero => intro vc i; simp [ensure_connected_go]
  | succ m ih =>
    intro vc i
    cases vc with
    | some h2 =>
      simp only [ensure_connected_go]
      split_ifs with hw
      · simp
      · exact (ih none (i + 1)).trans (Nat.le_succ m)
    | none =>
      simp only [ensure_connected_go]
      rcases hcc : (oracle i).connect with _ | _
      · split_ifs with hw
        · simp
        · have hle := ih none (i + 1)
          simpa using Nat.succ_le_succ hle
      · have hle := ih none (i + 1)
        simpa using Nat.succ_le_succ hle

/-- When every attempt either raises on connect or never becomes ready, the
connect loop consumes its whole budget and fails. -/
theorem ensure_connected_go_all_fail (oracle : Nat → TTSAttempt) (ch : Nat)
    (h : ∀ i, (oracle i).connect = ConnectOutcome.raises ∨
      ∀ k, (oracle i).readyAt k = false) :
    ∀ (n i : Nat), ensure_connected_go oracle ch none i n = (none, n) := by
  intro n
  induction n with
  | zero => intro i; rfl
  | succ m ih =>
    intro i
    rcases hcc : (oracle i).connect with _ | _
    · have hr : ∀ k, (oracle i).readyAt k = false := by
        rcases h i with hc | hr
        · rw [hcc] at hc
          exact absurd hc (by simp)
        · exact hr
      have hw : wait_voice_ready true (oracle i).readyAt = false := by
        simp [wait_voice_ready, wait_voice_ready_go_all_false _ hr]
      simp [ensure_connected_go, hcc, hw, ih (i + 1)]
    · simp [ensure_connected_go, hcc, ih (i + 1)]

/-- C1 amended: the bounded retry behavior lives in the TTS cog's
ensure_connected, not in the music cog's join routine: the 12 second
readiness budget at 200 millisecond intervals yields the 60-poll budget,
the loop makes at most 3 connect calls, and when every attempt raises or
never becomes ready it returns None after exactly 3 connect calls; in the
music cog, whenever ensure_voice_connection yields no usable client (user
not in voice, or the single connect raised), the play command returns with
no resolution call, no enqueue and no sink start. -/
theorem ensureConnected_retry_bounded :
    ((voice_ready_timeout / voice_ready_interval : ℚ) = (wait_ready_poll_count : ℚ) ∧
      tts_connect_timeout = 20 ∧ voice_ready_timeout = 12 ∧
      voice_ready_interval = 1/5) ∧
    (∀ (ch : Nat) (existingVc : Option Nat) (oracle : Nat → TTSAttempt),
      (ensure_connected (some ch) existingVc oracle).2 ≤ 3) ∧
    (∀ (ch : Nat) (oracle : Nat → TTSAttempt),
      (∀ i, (oracle i).connect = ConnectOutcome.raises ∨
        ∀ k, (oracle i).readyAt k = false) →
      ensure_connected (some ch) none oracle = (none, 3)) ∧
    (∀ (userChannel existingClient : Option Nat) (connect : Nat → ConnectOutcome)
        (q : MusicQueue) (resolves : SongData → Bool) (song : SongData)
        (alreadyPlaying : Bool),
      ((ensure_voice_connection userChannel existingClient connect).1 =
          JoinResult.notInVoice ∨
       (ensure_voice_connection userChannel existingClient connect).1 =
          JoinResult.exnPropagated) →
      play_trace userChannel existingClient connect q resolves song alreadyPlaying =
        (q, [])) := by
  refine ⟨⟨?_, rfl, rfl, rfl⟩, ?_, ?_, ?_⟩
  · norm_num [voice_ready_timeout, voice_ready_interval, wait_ready_poll_count]
  · intro ch existingVc oracle
    exact ensure_connected_go_count_le oracle ch 3 existingVc 0
  · intro ch oracle h
    exact ensure_connected_go_all_fail oracle ch h 3 0
  · intro userChannel existingClient connect q resolves song alreadyPlaying h
    rcases hev : ensure_voice_connection userChannel existingClient connect with ⟨jr, n⟩
    rw [hev] at h
    cases jr with
    | handle c =>
      rcases h with h | h <;> exact absurd h (by simp)
    | notInVoice => simp [play_trace, hev]
    | exnPropagated => simp [play_trace, hev]

/-- Witness for C1 amended: an all-raising oracle exhausts the 3 attempts
and fails, and the music play command with a raising connect leaves the
queue untouched and emits no events, via the theorem. -/
theorem ensureConnected_retry_bounded_witness :
    ensure_connected (some 1) none
      (fun _ => { connect := ConnectOutcome.raises, readyAt := fun _ => false }) =
      (none, 3) ∧
    play_trace (some 1) none (fun _ => ConnectOutcome.raises) qA
      (fun _ => true) songB false = (qA, []) := by
  constructor
  · exact ensureConnected_retry_bounded.2.2.1 1 _ (fun i => Or.inl rfl)
  · exact ensureConnected_retry_bounded.2.2.2 (some 1) none _ qA (fun _ => true)
      songB false (Or.inr rfl)
